import Mathlib

/-!
Shallow embedding of `june/new_implementation/Taylor_Andersons_work/interaction_policies.py`.

Modelling conventions:
- Python floats are modelled as exact rationals (`ℚ`); the claims under scrutiny are
  algebraic, not about rounding.
- Python dicts are modelled as association lists `List (String × ℚ)` in insertion
  order; lookup takes the first matching key (a real dict has unique keys).
- Optional attributes tested with `hasattr` become `Option` fields; an absent
  attribute is `none`.
- Dates are modelled as integers (ordinal days) with the usual order; the base
  `Policy` class (file `policy.py`, not part of the sources) only contributes the
  window-membership test, which is modelled from the spec.
- Fallible operations (Python code that can raise) return `Except String`.
- `random.random()` draws become an explicit argument `r : ℚ`.
-/

namespace JUNE

/-- Lookup in a Python-dict-as-association-list: first entry with the given key. -/
def dictLookup (d : List (String × ℚ)) (k : String) : Option ℚ :=
  (d.find? (fun kv => kv.1 == k)).map (fun kv => kv.2)

/-- The keys of a dict, in insertion order. -/
def dictKeys (d : List (String × ℚ)) : List String :=
  d.map (fun kv => kv.1)

/-- A `Person` (external collaborator, class in the `june` population model).
Attributes read or written by this module; `none` models an absent attribute. -/
structure Person where
  sex : Option String := none
  ethnicity : Option String := none
  income : Option ℚ := none
  political : Option String := none
  perceived_vulnerability : Option Bool := none
  wears_mask : Option Bool := none
  mask_factor : Option ℚ := none
deriving Repr, DecidableEq

/-- A group object as seen by the transmission wrapper: only its `spec` attribute
(`hasattr(group, "spec")` becomes `Option`). -/
structure Group where
  spec : Option String := none
deriving Repr, DecidableEq

/-- `SocialDistancing` policy: window plus the configured `beta_factors`
(dict or `None`, as in the constructor default). -/
structure SocialDistancing where
  start_time : Int
  end_time : Int
  beta_factors : Option (List (String × ℚ)) := none
deriving Repr, DecidableEq

/-- `SocialDistancing.apply`: pure passthrough of `self.beta_factors`. -/
def SocialDistancing.apply (sd : SocialDistancing) : Option (List (String × ℚ)) :=
  sd.beta_factors

/-- `MaskWearing` policy configuration after `__init__` has resolved the
male/female factors against the default (see `mkMaskWearing`). -/
structure MaskWearing where
  start_time : Int
  end_time : Int
  compliance : ℚ
  beta_factor : ℚ
  beta_factor_male : ℚ
  beta_factor_female : ℚ
  mask_probabilities : Option (List (String × ℚ)) := none
  behavioral_model : Bool := false
deriving Repr, DecidableEq

/-- `MaskWearing.__init__`: `beta_factor_male`/`beta_factor_female` default to
`beta_factor` when not provided (`None`). -/
def mkMaskWearing (start_time end_time : Int) (compliance beta_factor : ℚ)
    (beta_factor_male : Option ℚ := none) (beta_factor_female : Option ℚ := none)
    (mask_probabilities : Option (List (String × ℚ)) := none)
    (behavioral_model : Bool := false) : MaskWearing :=
  { start_time := start_time
    end_time := end_time
    compliance := compliance
    beta_factor := beta_factor
    beta_factor_male := beta_factor_male.getD beta_factor
    beta_factor_female := beta_factor_female.getD beta_factor
    mask_probabilities := mask_probabilities
    behavioral_model := behavioral_model }

/-- The `self.odds_ratios` dict set in `MaskWearing.__init__` (constants from
Anderson et al.). -/
def odds_ratios : List (String × ℚ) :=
  [("male", 0.437807),
   ("white", 0.288743),
   ("income_high", 2.470556),
   ("democratic", 2.452319),
   ("vulnerability_high", 3.571090),
   ("intercept", 4.540417)]

/-- `self.odds_ratios[k]` (every key used by the code is present, so the default
is never reached). -/
def oddsRatio (k : String) : ℚ :=
  (dictLookup odds_ratios k).getD 0

/-- `MaskWearing.calculate_mask_adoption_probability(person)`. -/
def calculate_mask_adoption_probability (mw : MaskWearing) (person : Person) : ℚ :=
  if !mw.behavioral_model then
    mw.compliance
  else
    let odds := oddsRatio "intercept"
    let odds := if person.sex = some "m" then odds * oddsRatio "male" else odds
    let odds := if person.ethnicity = some "white" then odds * oddsRatio "white" else odds
    let odds := match person.income with
      | some x => if x > 70000 then odds * oddsRatio "income_high" else odds
      | none => odds
    let odds := if person.political = some "democratic" then odds * oddsRatio "democratic" else odds
    let odds := if person.perceived_vulnerability = some true then odds * oddsRatio "vulnerability_high" else odds
    odds / (1 + odds)

/-- `MaskWearing.apply`: iterates `self.mask_probabilities.items()`; raises
`AttributeError` when `mask_probabilities` is `None`. -/
def MaskWearing.apply (mw : MaskWearing) : Except String (List (String × ℚ)) :=
  match mw.mask_probabilities with
  | none => .error "AttributeError: NoneType object has no attribute items"
  | some m => .ok (m.map (fun kv => (kv.1, 1 - (kv.2 * mw.compliance * (1 - mw.beta_factor)))))

/-- The `if hasattr(person, 'sex') ... elif ... else` dispatch that picks the
sex-specific beta factor (shared shape of `apply_to_person` and the wrapper). -/
def sex_specific_beta (mw : MaskWearing) (sex : Option String) : ℚ :=
  match sex with
  | some s => if s = "m" then mw.beta_factor_male
              else if s = "f" then mw.beta_factor_female
              else mw.beta_factor
  | none => mw.beta_factor

/-- `MaskWearing.apply_to_person(person)`, with the `random.random()` draw made
an explicit argument `r`. -/
def apply_to_person (mw : MaskWearing) (r : ℚ) (person : Person) : Person :=
  let wears : Bool :=
    if mw.behavioral_model then
      decide (r < calculate_mask_adoption_probability mw person)
    else
      decide (r < mw.compliance)
  let person := { person with wears_mask := some wears }
  if wears then
    { person with mask_factor := some (sex_specific_beta mw person.sex) }
  else
    { person with mask_factor := some 1 }

/-- An interaction policy is either a `SocialDistancing` or a `MaskWearing`
instance (the two `InteractionPolicy` subclasses in the file). -/
inductive InteractionPolicy where
  | socialDistancing (sd : SocialDistancing)
  | maskWearing (mw : MaskWearing)
deriving Repr, DecidableEq

/-- The `start_time` inherited from the base `Policy`. -/
def InteractionPolicy.start_time : InteractionPolicy → Int
  | .socialDistancing sd => sd.start_time
  | .maskWearing mw => mw.start_time

/-- The `end_time` inherited from the base `Policy`. -/
def InteractionPolicy.end_time : InteractionPolicy → Int
  | .socialDistancing sd => sd.end_time
  | .maskWearing mw => mw.end_time

/-- Modelled from the spec: `PolicyCollection.get_active(date)` (class in
`policy.py`, which is not among the sources). The spec states that a policy is
active at date `d` iff `start ≤ d ≤ end` and that a `PolicyCollection` is an
ordered sequence queryable for the subset active at a given date. -/
def get_active (ps : List InteractionPolicy) (date : Int) : List InteractionPolicy :=
  ps.filter (fun p => decide (p.start_time ≤ date ∧ date ≤ p.end_time))

/-- What `policy.apply()` hands the combinator: `SocialDistancing.apply` may
return `None` without raising; `MaskWearing.apply` raises on a `None`
`mask_probabilities`. -/
def policyApplyRaw : InteractionPolicy → Except String (Option (List (String × ℚ)))
  | .socialDistancing sd => .ok sd.apply
  | .maskWearing mw => (mw.apply).map some

/-- The `beta_reductions` defaultdict: reading an absent group yields `1.0`. -/
def brLookup (br : List (String × ℚ)) (k : String) : ℚ :=
  (dictLookup br k).getD 1

/-- Assignment `br[k] = v` on the defaultdict: replace the first entry with key
`k`, or append a fresh entry. -/
def brUpdate (br : List (String × ℚ)) (k : String) (v : ℚ) : List (String × ℚ) :=
  match br with
  | [] => [(k, v)]
  | (k', v') :: rest => if k' = k then (k', v) :: rest else (k', v') :: brUpdate rest k v

/-- The inner loop of `InteractionPolicies.apply`:
`for group in d: beta_reductions[group] *= d[group]` (iterating a dict's
entries in order; an entry's value is `d[group]` since dict keys are unique). -/
def foldPolicyDict (d : List (String × ℚ)) (br : List (String × ℚ)) : List (String × ℚ) :=
  d.foldl (fun br kv => brUpdate br kv.1 (brLookup br kv.1 * kv.2)) br

/-- The outer loop of `InteractionPolicies.apply` over the active policies:
raises `TypeError` when a policy's `apply()` returned `None` (iterating `None`),
and propagates `MaskWearing.apply`'s own error. -/
def applyActivePolicies : List InteractionPolicy → List (String × ℚ) → Except String (List (String × ℚ))
  | [], br => .ok br
  | p :: ps, br =>
    match policyApplyRaw p with
    | .error e => .error e
    | .ok none => .error "TypeError: NoneType object is not iterable"
    | .ok (some d) => applyActivePolicies ps (foldPolicyDict d br)

/-- The transmission-function slot of the interaction engine: either the
engine's own function, or the `gender_specific_transmission_wrapper` closure
installed by a `MaskWearing` instance (which reads the engine's
`_original_calculate_transmission` slot at call time). -/
inductive TransFn where
  | base (f : Person → Person → Group → ℚ → ℚ)
  | wrapper (mw : MaskWearing)

/-- The interaction engine's state seen by this module:
`calculate_transmission`, the `_original_calculate_transmission` slot (absent
until some instance saves it), and `beta_reductions`. -/
structure Interaction where
  calculate_transmission : TransFn
  original_calculate_transmission : Option TransFn := none
  beta_reductions : List (String × ℚ) := []

/-- `InteractionPolicies.apply(date, interaction)`: folds the active policies'
mappings into a fresh defaultdict and overwrites `interaction.beta_reductions`. -/
def InteractionPolicies.apply (ps : List InteractionPolicy) (date : Int)
    (interaction : Interaction) : Except String Interaction :=
  (applyActivePolicies (get_active ps date) []).map
    (fun br => { interaction with beta_reductions := br })

/-- The demographic factor computed inside
`gender_specific_transmission_wrapper` (the amount `transmission_prob` is
multiplied by). In standard mode, `group.spec in self.mask_probabilities`
raises `TypeError` when `mask_probabilities` is `None` and `group.spec`
exists. -/
def wrapperFactor (mw : MaskWearing) (susceptible : Person) (group : Group) : Except String ℚ :=
  if mw.behavioral_model then
    if susceptible.wears_mask = some true then
      .ok (sex_specific_beta mw susceptible.sex)
    else
      .ok 1
  else
    match group.spec with
    | none => .ok 1
    | some sp =>
      match mw.mask_probabilities with
      | none => .error "TypeError: argument of type NoneType is not iterable"
      | some m =>
        match dictLookup m sp with
        | some p => .ok (1 - (p * mw.compliance * (1 - sex_specific_beta mw susceptible.sex)))
        | none => .ok 1

/-- Calling `interaction.calculate_transmission(...)`. A wrapper reads
`interaction._original_calculate_transmission` at call time (late binding: the
closure holds the interaction object, not the saved function); a wrapper
finding another wrapper in that slot would re-enter itself forever
(`RecursionError`). -/
def callTrans (i : Interaction) (susceptible infected : Person) (group : Group)
    (delta_time : ℚ) : Except String ℚ :=
  match i.calculate_transmission with
  | .base f => .ok (f susceptible infected group delta_time)
  | .wrapper mw =>
    match i.original_calculate_transmission with
    | none => .error "AttributeError: no original_calculate_transmission"
    | some (.base f) =>
      (wrapperFactor mw susceptible group).map
        (fun fac => f susceptible infected group delta_time * fac)
    | some (.wrapper _) => .error "RecursionError: maximum recursion depth exceeded"

/-- `MaskWearing.apply_to_interaction(date, interaction)`. The instance's
mutable `_original_transmission_func_saved` flag is passed and returned
explicitly. -/
def apply_to_interaction (mw : MaskWearing) (saved : Bool) (date : Int)
    (i : Interaction) : Bool × Interaction :=
  if mw.start_time ≤ date ∧ date ≤ mw.end_time then
    if saved then (saved, i)
    else
      let i :=
        match i.original_calculate_transmission with
        | some _ => i
        | none => { i with original_calculate_transmission := some i.calculate_transmission }
      (true, { i with calculate_transmission := .wrapper mw })
  else
    if saved then
      match i.original_calculate_transmission with
      | some tf => (false, { i with calculate_transmission := tf })
      | none => (saved, i)
    else (saved, i)

/-- A sequence of `apply_to_interaction` calls by one instance across simulation
date steps. -/
def apply_to_interaction_seq (mw : MaskWearing) (dates : List Int)
    (s : Bool × Interaction) : Bool × Interaction :=
  dates.foldl (fun s d => apply_to_interaction mw s.1 d s.2) s

/-- The per-group factor a policy's `apply()` mapping contributes: the mapped
value when the group is a key, `1.0` when the mapping lacks the group. -/
def policyFactor (p : InteractionPolicy) (g : String) : ℚ :=
  match policyApplyRaw p with
  | .ok (some d) => (dictLookup d g).getD 1
  | _ => 1

/-! ### Association-list lemmas -/

theorem dictLookup_nil (k : String) : dictLookup [] k = none := rfl

theorem dictLookup_cons_self (k : String) (v : ℚ) (d : List (String × ℚ)) :
    dictLookup ((k, v) :: d) k = some v := by
  simp [dictLookup, List.find?]

theorem dictLookup_cons_ne {g k : String} (h : g ≠ k) (v : ℚ) (d : List (String × ℚ)) :
    dictLookup ((k, v) :: d) g = dictLookup d g := by
  have hb : (k == g) = false := beq_eq_false_iff_ne.mpr (Ne.symm h)
  simp [dictLookup, List.find?, hb]

theorem dictLookup_eq_none_of_not_mem {d : List (String × ℚ)} {k : String}
    (h : k ∉ dictKeys d) : dictLookup d k = none := by
  induction d with
  | nil => rfl
  | cons kv rest ih =>
    obtain ⟨k', v'⟩ := kv
    have hh : k ∉ k' :: dictKeys rest := h
    have hne : k ≠ k' := fun e => hh (by rw [e]; exact List.mem_cons_self k' (dictKeys rest))
    rw [dictLookup_cons_ne hne v' rest]
    exact ih (fun m => hh (List.mem_cons_of_mem k' m))

theorem brLookup_nil (k : String) : brLookup [] k = 1 := rfl

theorem brLookup_brUpdate_self (br : List (String × ℚ)) (k : String) (v : ℚ) :
    brLookup (brUpdate br k v) k = v := by
  induction br with
  | nil => simp [brUpdate, brLookup, dictLookup_cons_self]
  | cons kv rest ih =>
    obtain ⟨k', v'⟩ := kv
    by_cases h : k' = k
    · subst h
      simp [brUpdate, brLookup, dictLookup_cons_self]
    · simp only [brUpdate, if_neg h]
      rw [brLookup, dictLookup_cons_ne (Ne.symm h), ← brLookup]
      exact ih

theorem brLookup_brUpdate_other (br : List (String × ℚ)) {g k : String} (h : g ≠ k) (v : ℚ) :
    brLookup (brUpdate br k v) g = brLookup br g := by
  induction br with
  | nil =>
    show brLookup [(k, v)] g = brLookup [] g
    rw [brLookup, dictLookup_cons_ne h, dictLookup_nil, brLookup, dictLookup_nil]
  | cons kv rest ih =>
    obtain ⟨k', v'⟩ := kv
    show brLookup (if k' = k then (k', v) :: rest else (k', v') :: brUpdate rest k v) g =
      brLookup ((k', v') :: rest) g
    by_cases h' : k' = k
    · have hg : g ≠ k' := fun e => h (e.trans h')
      rw [if_pos h', brLookup, dictLookup_cons_ne hg, brLookup, dictLookup_cons_ne hg]
    · rw [if_neg h']
      by_cases hg : g = k'
      · subst hg
        rw [brLookup, dictLookup_cons_self, brLookup, dictLookup_cons_self]
      · rw [brLookup, dictLookup_cons_ne hg, brLookup, dictLookup_cons_ne hg,
          ← brLookup, ← brLookup]
        exact ih

theorem brLookup_foldPolicyDict (d : List (String × ℚ)) (br : List (String × ℚ))
    (hd : (dictKeys d).Nodup) (g : String) :
    brLookup (foldPolicyDict d br) g = brLookup br g * (dictLookup d g).getD 1 := by
  induction d generalizing br with
  | nil => simp [foldPolicyDict, dictLookup_nil]
  | cons kv rest ih =>
    obtain ⟨k, v⟩ := kv
    have hd' : (k :: dictKeys rest).Nodup := hd
    have hk : k ∉ dictKeys rest := (List.nodup_cons.mp hd').1
    have hrest : (dictKeys rest).Nodup := (List.nodup_cons.mp hd').2
    have hstep : foldPolicyDict ((k, v) :: rest) br =
        foldPolicyDict rest (brUpdate br k (brLookup br k * v)) := rfl
    rw [hstep, ih _ hrest]
    by_cases h : g = k
    · subst h
      rw [brLookup_brUpdate_self, dictLookup_eq_none_of_not_mem hk,
        dictLookup_cons_self]
      simp
    · rw [brLookup_brUpdate_other br h, dictLookup_cons_ne h]

theorem applyActivePolicies_ok (l : List InteractionPolicy) (br : List (String × ℚ))
    (h : ∀ p ∈ l, ∃ d, policyApplyRaw p = .ok (some d) ∧ (dictKeys d).Nodup) :
    ∃ br', applyActivePolicies l br = .ok br' ∧
      ∀ g, brLookup br' g = brLookup br g * (l.map (fun p => policyFactor p g)).prod := by
  induction l generalizing br with
  | nil => exact ⟨br, rfl, by simp⟩
  | cons p ps ih =>
    obtain ⟨d, hdok, hnd⟩ := h p (List.mem_cons_self p ps)
    obtain ⟨br', h1, h2⟩ :=
      ih (foldPolicyDict d br) (fun q hq => h q (List.mem_cons_of_mem p hq))
    refine ⟨br', ?_, ?_⟩
    · simpa [applyActivePolicies, hdok] using h1
    · intro g
      have hpf : policyFactor p g = (dictLookup d g).getD 1 := by
        simp [policyFactor, hdok]
      rw [h2 g, brLookup_foldPolicyDict d br hnd g, List.map_cons, List.prod_cons, hpf]
      ring

/-! ### State-machine lemmas for `apply_to_interaction` -/

theorem apply_to_interaction_in_window_saved (mw : MaskWearing) (d : Int) (i : Interaction)
    (hin : mw.start_time ≤ d ∧ d ≤ mw.end_time) :
    apply_to_interaction mw true d i = (true, i) := by
  simp [apply_to_interaction, hin]

theorem apply_to_interaction_seq_in_window_saved (mw : MaskWearing) (dates : List Int)
    (h : ∀ d ∈ dates, mw.start_time ≤ d ∧ d ≤ mw.end_time) (i : Interaction) :
    apply_to_interaction_seq mw dates (true, i) = (true, i) := by
  induction dates with
  | nil => rfl
  | cons d ds ih =>
    have hstep : apply_to_interaction_seq mw (d :: ds) (true, i) =
        apply_to_interaction_seq mw ds (apply_to_interaction mw true d i) := rfl
    rw [hstep, apply_to_interaction_in_window_saved mw d i (h d (List.mem_cons_self d ds))]
    exact ih (fun x hx => h x (List.mem_cons_of_mem d hx))

theorem apply_to_interaction_fresh_install (mw : MaskWearing) (d : Int) (i : Interaction)
    (hslot : i.original_calculate_transmission = none)
    (hin : mw.start_time ≤ d ∧ d ≤ mw.end_time) :
    apply_to_interaction mw false d i =
      (true, { i with calculate_transmission := .wrapper mw,
                      original_calculate_transmission := some i.calculate_transmission }) := by
  simp [apply_to_interaction, hin, hslot]

theorem apply_to_interaction_seq_fresh (mw : MaskWearing) (dates : List Int)
    (hdates : ∀ d ∈ dates, mw.start_time ≤ d ∧ d ≤ mw.end_time) (i : Interaction)
    (hslot : i.original_calculate_transmission = none) :
    apply_to_interaction_seq mw dates (false, i) = (false, i) ∨
    apply_to_interaction_seq mw dates (false, i) =
      (true, { i with calculate_transmission := .wrapper mw,
                      original_calculate_transmission := some i.calculate_transmission }) := by
  cases dates with
  | nil => exact Or.inl rfl
  | cons d ds =>
    right
    have hstep : apply_to_interaction_seq mw (d :: ds) (false, i) =
        apply_to_interaction_seq mw ds (apply_to_interaction mw false d i) := rfl
    rw [hstep,
      apply_to_interaction_fresh_install mw d i hslot (hdates d (List.mem_cons_self d ds))]
    exact apply_to_interaction_seq_in_window_saved mw ds
      (fun x hx => hdates x (List.mem_cons_of_mem d hx)) _

/-! ### Concrete fixtures -/

/-- A base transmission function returning probability `1` everywhere. -/
def fOne : Person → Person → Group → ℚ → ℚ := fun _ _ _ _ => 1

/-- An untouched interaction engine. -/
def iBase : Interaction := { calculate_transmission := .base fOne }

/-- A behavioral-model mask policy with all beta factors `1/2`, window `[0, 10]`. -/
def mwA : MaskWearing :=
  { start_time := 0, end_time := 10, compliance := 1, beta_factor := 1/2,
    beta_factor_male := 1/2, beta_factor_female := 1/2,
    mask_probabilities := none, behavioral_model := true }

/-- Like `mwA` but with beta factors `1/3`. -/
def mwB : MaskWearing :=
  { mwA with beta_factor := 1/3, beta_factor_male := 1/3, beta_factor_female := 1/3 }

/-- A mask-wearing person with no other attributes. -/
def pMask : Person := { wears_mask := some true }

/-- The spec's worked example: compliance `1`, default beta factor `1/2`,
school prevalence `1`. -/
def mwSchool : MaskWearing :=
  { start_time := 0, end_time := 10, compliance := 1, beta_factor := 1/2,
    beta_factor_male := 1/2, beta_factor_female := 1/2,
    mask_probabilities := some [("school", 1)], behavioral_model := false }

/-- `mwSchool` with the behavioral adoption model switched on. -/
def mwBehavioral : MaskWearing := { mwSchool with behavioral_model := true }

/-- A person matching all five positive odds-ratio conditions. -/
def personAllFive : Person :=
  { sex := some "m", ethnicity := some "white", income := some 100000,
    political := some "democratic", perceived_vulnerability := some true }

/-- A social-distancing policy over `[0, 10]` halving the school beta. -/
def sdSchool : SocialDistancing :=
  { start_time := 0, end_time := 10, beta_factors := some [("school", 1/2)] }

/-- A second social-distancing policy touching two groups. -/
def sdPub : SocialDistancing :=
  { start_time := 0, end_time := 10, beta_factors := some [("pub", 1/4), ("school", 3/4)] }

/-- An interaction with `mwA`'s wrapper installed over the base function. -/
def iWrapA : Interaction :=
  { calculate_transmission := .wrapper mwA,
    original_calculate_transmission := some (.base fOne) }

/-! ### Claim theorems -/

/-- C1: after `InteractionPolicies.apply(d, interaction)`,
`interaction.beta_reductions` is a fresh mapping (the previous value is fully
overwritten, independently of what it was) that reads, for each group `g`, the
product over the active policies of the factor their `apply()` mapping gives
`g`, a policy whose mapping lacks `g` contributing `1.0`; groups in no active
mapping read `1.0` and an empty active set yields the identity mapping (both
are the empty/partial products of the same formula). Stated for active
policies whose `apply()` yields an actual mapping with the unique keys of a
Python dict. -/
theorem interactionPolicies_apply_folds_product (ps : List InteractionPolicy) (date : Int)
    (h : ∀ p ∈ get_active ps date,
      ∃ d, policyApplyRaw p = .ok (some d) ∧ (dictKeys d).Nodup) :
    ∃ B, (∀ interaction : Interaction,
        InteractionPolicies.apply ps date interaction =
          .ok { interaction with beta_reductions := B }) ∧
      (∀ g, brLookup B g = ((get_active ps date).map (fun p => policyFactor p g)).prod) := by
  obtain ⟨br', h1, h2⟩ := applyActivePolicies_ok (get_active ps date) [] h
  refine ⟨br', fun i => ?_, fun g => ?_⟩
  · simp [InteractionPolicies.apply, h1, Except.map]
  · rw [h2 g, brLookup_nil, one_mul]

theorem interactionPolicies_apply_folds_product_witness :
    (∀ p ∈ get_active [InteractionPolicy.socialDistancing sdSchool,
          InteractionPolicy.socialDistancing sdPub] 5,
        ∃ d, policyApplyRaw p = .ok (some d) ∧ (dictKeys d).Nodup) ∧
    ∃ B, (∀ interaction : Interaction,
        InteractionPolicies.apply [InteractionPolicy.socialDistancing sdSchool,
          InteractionPolicy.socialDistancing sdPub] 5 interaction =
          .ok { interaction with beta_reductions := B }) ∧
      (∀ g, brLookup B g =
        ((get_active [InteractionPolicy.socialDistancing sdSchool,
          InteractionPolicy.socialDistancing sdPub] 5).map (fun p => policyFactor p g)).prod) := by
  have hyp : ∀ p ∈ get_active [InteractionPolicy.socialDistancing sdSchool,
      InteractionPolicy.socialDistancing sdPub] 5,
      ∃ d, policyApplyRaw p = .ok (some d) ∧ (dictKeys d).Nodup := by
    intro p hp
    have hact : get_active [InteractionPolicy.socialDistancing sdSchool,
        InteractionPolicy.socialDistancing sdPub] 5 =
        [InteractionPolicy.socialDistancing sdSchool,
         InteractionPolicy.socialDistancing sdPub] := rfl
    rw [hact] at hp
    rcases hp with _ | ⟨_, hp⟩
    · exact ⟨[("school", 1/2)], rfl, by decide⟩
    · rcases hp with _ | ⟨_, hp⟩
      · exact ⟨[("pub", 1/4), ("school", 3/4)], rfl, by decide⟩
      · cases hp
  exact ⟨hyp, interactionPolicies_apply_folds_product _ 5 hyp⟩

/-- C9: the mapping produced by `InteractionPolicies.apply` is independent of
the iteration order over the policies: permuting the policy collection yields a
`beta_reductions` mapping assigning every group the same factor (multiplication
of the per-policy factors is commutative and associative). -/
theorem interactionPolicies_apply_order_independent
    (ps₁ ps₂ : List InteractionPolicy) (hperm : ps₁.Perm ps₂) (date : Int)
    (h : ∀ p ∈ get_active ps₁ date,
      ∃ d, policyApplyRaw p = .ok (some d) ∧ (dictKeys d).Nodup) :
    ∃ B₁ B₂,
      (∀ i : Interaction, InteractionPolicies.apply ps₁ date i =
        .ok { i with beta_reductions := B₁ }) ∧
      (∀ i : Interaction, InteractionPolicies.apply ps₂ date i =
        .ok { i with beta_reductions := B₂ }) ∧
      (∀ g, brLookup B₁ g = brLookup B₂ g) := by
  have hpermA : (get_active ps₁ date).Perm (get_active ps₂ date) := hperm.filter _
  have h₂ : ∀ p ∈ get_active ps₂ date,
      ∃ d, policyApplyRaw p = .ok (some d) ∧ (dictKeys d).Nodup :=
    fun p hp => h p (hpermA.mem_iff.mpr hp)
  obtain ⟨B₁, h11, h12⟩ := applyActivePolicies_ok (get_active ps₁ date) [] h
  obtain ⟨B₂, h21, h22⟩ := applyActivePolicies_ok (get_active ps₂ date) [] h₂
  refine ⟨B₁, B₂, fun i => by simp [InteractionPolicies.apply, h11, Except.map],
    fun i => by simp [InteractionPolicies.apply, h21, Except.map], fun g => ?_⟩
  rw [h12 g, h22 g, (hpermA.map (fun p => policyFactor p g)).prod_eq]

theorem interactionPolicies_apply_order_independent_witness :
    ([InteractionPolicy.socialDistancing sdSchool,
      InteractionPolicy.socialDistancing sdPub].Perm
      [InteractionPolicy.socialDistancing sdPub,
       InteractionPolicy.socialDistancing sdSchool]) ∧
    (∀ p ∈ get_active [InteractionPolicy.socialDistancing sdSchool,
          InteractionPolicy.socialDistancing sdPub] 5,
        ∃ d, policyApplyRaw p = .ok (some d) ∧ (dictKeys d).Nodup) ∧
    ∃ B₁ B₂,
      (∀ i : Interaction, InteractionPolicies.apply
        [InteractionPolicy.socialDistancing sdSchool,
         InteractionPolicy.socialDistancing sdPub] 5 i =
        .ok { i with beta_reductions := B₁ }) ∧
      (∀ i : Interaction, InteractionPolicies.apply
        [InteractionPolicy.socialDistancing sdPub,
         InteractionPolicy.socialDistancing sdSchool] 5 i =
        .ok { i with beta_reductions := B₂ }) ∧
      (∀ g, brLookup B₁ g = brLookup B₂ g) := by
  have hperm : ([InteractionPolicy.socialDistancing sdSchool,
      InteractionPolicy.socialDistancing sdPub].Perm
      [InteractionPolicy.socialDistancing sdPub,
       InteractionPolicy.socialDistancing sdSchool]) := List.Perm.swap _ _ _
  have hyp : ∀ p ∈ get_active [InteractionPolicy.socialDistancing sdSchool,
      InteractionPolicy.socialDistancing sdPub] 5,
      ∃ d, policyApplyRaw p = .ok (some d) ∧ (dictKeys d).Nodup := by
    intro p hp
    have hact : get_active [InteractionPolicy.socialDistancing sdSchool,
        InteractionPolicy.socialDistancing sdPub] 5 =
        [InteractionPolicy.socialDistancing sdSchool,
         InteractionPolicy.socialDistancing sdPub] := rfl
    rw [hact] at hp
    rcases hp with _ | ⟨_, hp⟩
    · exact ⟨[("school", 1/2)], rfl, by decide⟩
    · rcases hp with _ | ⟨_, hp⟩
      · exact ⟨[("pub", 1/4), ("school", 3/4)], rfl, by decide⟩
      · cases hp
  exact ⟨hperm, hyp, interactionPolicies_apply_order_independent _ _ hperm 5 hyp⟩

/-- C4 (code bug in the source): with `SocialDistancing.beta_factors` unset
(`None`, its constructor default), `InteractionPolicies.apply` iterates `None`
(`for group in beta_reductions_dict`) and raises `TypeError` instead of
treating the missing mapping as no effect; likewise `MaskWearing.apply` raises
`AttributeError` on an unset `mask_probabilities` instead of yielding factor
`1`. This theorem evaluates both at the failing inputs. -/
theorem apply_raises_on_none_config :
    InteractionPolicies.apply
        [.socialDistancing { start_time := 0, end_time := 10, beta_factors := none }] 5 iBase =
      .error "TypeError: NoneType object is not iterable" ∧
    MaskWearing.apply
        { start_time := 0, end_time := 10, compliance := 1/2, beta_factor := 1/2,
          beta_factor_male := 1/2, beta_factor_female := 1/2,
          mask_probabilities := none, behavioral_model := false } =
      .error "AttributeError: NoneType object has no attribute items" :=
  ⟨rfl, rfl⟩

/-- C6: `MaskWearing.apply()` returns a mapping over exactly the keys of
`mask_probabilities`, giving each group of prevalence `p` the factor
`1 - (p * compliance * (1 - beta_factor))`; if `compliance = 0` or
`beta_factor = 1` every factor is `1`; on the spec's example (compliance `1`,
beta factor `1/2`, school prevalence `1`) the school factor is `1/2`. -/
theorem maskWearing_apply_formula (mw : MaskWearing) (m : List (String × ℚ))
    (h : mw.mask_probabilities = some m) :
    (∃ r, MaskWearing.apply mw = .ok r ∧
      dictKeys r = dictKeys m ∧
      (∀ k p, (k, p) ∈ m → (k, 1 - (p * mw.compliance * (1 - mw.beta_factor))) ∈ r) ∧
      ((mw.compliance = 0 ∨ mw.beta_factor = 1) → ∀ kv ∈ r, kv.2 = 1)) ∧
    MaskWearing.apply mwSchool = .ok [("school", 1/2)] := by
  constructor
  · refine ⟨m.map (fun kv => (kv.1, 1 - (kv.2 * mw.compliance * (1 - mw.beta_factor)))),
      ?_, ?_, ?_, ?_⟩
    · simp [MaskWearing.apply, h]
    · simp [dictKeys, List.map_map, Function.comp]
    · intro k p hkp
      exact List.mem_map.mpr ⟨(k, p), hkp, rfl⟩
    · rintro (hc | hb) kv hkv
      · obtain ⟨⟨k, p⟩, _, rfl⟩ := List.mem_map.mp hkv
        simp [hc]
      · obtain ⟨⟨k, p⟩, _, rfl⟩ := List.mem_map.mp hkv
        simp [hb]
  · norm_num [MaskWearing.apply, mwSchool]

theorem maskWearing_apply_formula_witness :
    mwSchool.mask_probabilities = some [("school", 1)] ∧
    MaskWearing.apply mwSchool = .ok [("school", 1/2)] :=
  ⟨rfl, (maskWearing_apply_formula mwSchool [("school", 1)] rfl).2⟩

/-- C7: `calculate_mask_adoption_probability` returns the configured
`compliance` for every person when the behavioral model is off (no dependence
on any person attribute); when it is on, it returns `odds / (1 + odds)` where
`odds` is the intercept `4.540417` times the odds ratio of each condition that
holds on an attribute present on the person (absent attributes contribute no
multiplier); a person matching all five conditions yields exactly the product
of the six calibration constants. -/
theorem mask_adoption_probability_spec (mw : MaskWearing) (person : Person) :
    (mw.behavioral_model = false →
      calculate_mask_adoption_probability mw person = mw.compliance) ∧
    (mw.behavioral_model = true →
      calculate_mask_adoption_probability mw person =
        ((4.540417 : ℚ) *
          (if person.sex = some "m" then (0.437807 : ℚ) else 1) *
          (if person.ethnicity = some "white" then (0.288743 : ℚ) else 1) *
          (match person.income with
            | some x => if x > 70000 then (2.470556 : ℚ) else 1
            | none => (1 : ℚ)) *
          (if person.political = some "democratic" then (2.452319 : ℚ) else 1) *
          (if person.perceived_vulnerability = some true then (3.571090 : ℚ) else 1)) /
        (1 + ((4.540417 : ℚ) *
          (if person.sex = some "m" then (0.437807 : ℚ) else 1) *
          (if person.ethnicity = some "white" then (0.288743 : ℚ) else 1) *
          (match person.income with
            | some x => if x > 70000 then (2.470556 : ℚ) else 1
            | none => (1 : ℚ)) *
          (if person.political = some "democratic" then (2.452319 : ℚ) else 1) *
          (if person.perceived_vulnerability = some true then (3.571090 : ℚ) else 1)))) ∧
    (calculate_mask_adoption_probability mwBehavioral personAllFive =
      (4.540417 * 0.437807 * 0.288743 * 2.470556 * 2.452319 * 3.571090 : ℚ) /
      (1 + (4.540417 * 0.437807 * 0.288743 * 2.470556 * 2.452319 * 3.571090 : ℚ))) := by
  have hI : oddsRatio "intercept" = 4.540417 := rfl
  have hM : oddsRatio "male" = 0.437807 := rfl
  have hW : oddsRatio "white" = 0.288743 := rfl
  have hInc : oddsRatio "income_high" = 2.470556 := rfl
  have hD : oddsRatio "democratic" = 2.452319 := rfl
  have hV : oddsRatio "vulnerability_high" = 3.571090 := rfl
  refine ⟨fun h => by simp [calculate_mask_adoption_probability, h], fun h => ?_, ?_⟩
  · rcases hinc : person.income with _ | x
    · simp only [calculate_mask_adoption_probability, h, Bool.not_true, Bool.false_eq_true,
        if_false, hI, hM, hW, hInc, hD, hV, hinc]
      split_ifs <;> ring
    · simp only [calculate_mask_adoption_probability, h, Bool.not_true, Bool.false_eq_true,
        if_false, hI, hM, hW, hInc, hD, hV, hinc]
      split_ifs <;> ring
  · simp only [calculate_mask_adoption_probability, mwBehavioral, mwSchool, personAllFive,
      hI, hM, hW, hInc, hD, hV]
    norm_num

theorem mask_adoption_probability_spec_witness :
    mwSchool.behavioral_model = false ∧
    calculate_mask_adoption_probability mwSchool personAllFive = mwSchool.compliance :=
  ⟨rfl, (mask_adoption_probability_spec mwSchool personAllFive).1 rfl⟩

/-- C8: after `apply_to_person(person)` with uniform draw `r`: `wears_mask` is
true iff `r` is below the adoption probability (behavioral model) or below the
fixed compliance (standard mode); a wearer's `mask_factor` is the sex-specific
beta factor (`m`/`f`/default for other-or-absent); a non-wearer's is `1.0`; and
no other person attribute is mutated. -/
theorem apply_to_person_spec (mw : MaskWearing) (r : ℚ) (person : Person) :
    ((apply_to_person mw r person).wears_mask = some true ↔
      r < (if mw.behavioral_model then calculate_mask_adoption_probability mw person
           else mw.compliance)) ∧
    ((apply_to_person mw r person).wears_mask = some true →
      (apply_to_person mw r person).mask_factor =
        some (match person.sex with
          | some s => if s = "m" then mw.beta_factor_male
                      else if s = "f" then mw.beta_factor_female
                      else mw.beta_factor
          | none => mw.beta_factor)) ∧
    ((apply_to_person mw r person).wears_mask = some false →
      (apply_to_person mw r person).mask_factor = some 1) ∧
    (apply_to_person mw r person).sex = person.sex ∧
    (apply_to_person mw r person).ethnicity = person.ethnicity ∧
    (apply_to_person mw r person).income = person.income ∧
    (apply_to_person mw r person).political = person.political ∧
    (apply_to_person mw r person).perceived_vulnerability =
      person.perceived_vulnerability := by
  cases hb : mw.behavioral_model
  · by_cases hr : r < mw.compliance
    · simp [apply_to_person, hb, hr, sex_specific_beta]
    · simp [apply_to_person, hb, hr, sex_specific_beta]
  · by_cases hr : r < calculate_mask_adoption_probability mw person
    · simp [apply_to_person, hb, hr, sex_specific_beta]
    · simp [apply_to_person, hb, hr, sex_specific_beta]

theorem apply_to_person_spec_witness :
    ((apply_to_person mwSchool (1/4) personAllFive).wears_mask = some true ↔
      (1/4 : ℚ) < (if mwSchool.behavioral_model
        then calculate_mask_adoption_probability mwSchool personAllFive
        else mwSchool.compliance)) :=
  (apply_to_person_spec mwSchool (1/4) personAllFive).1

/-- C5: while a `MaskWearing` wrapper is installed (and the saved slot holds
the original function), every `calculate_transmission` call returns the saved
function's value times a demographic factor: with the behavioral model, the
sex-specific beta factor only if the susceptible wears a mask (else `1`); in
standard mode, `1 - (mask_probabilities[group.spec] * compliance * (1 - b))`
with `b` the sex-specialized beta factor, and `1.0` when `group.spec` is absent
or not a key of `mask_probabilities`. -/
theorem wrapper_active_behavior (mw : MaskWearing) (f : Person → Person → Group → ℚ → ℚ)
    (i : Interaction) (hct : i.calculate_transmission = .wrapper mw)
    (hslot : i.original_calculate_transmission = some (.base f))
    (susceptible infected : Person) (group : Group) (delta_time : ℚ) :
    (mw.behavioral_model = true →
      callTrans i susceptible infected group delta_time =
        .ok (f susceptible infected group delta_time *
          (if susceptible.wears_mask = some true
           then sex_specific_beta mw susceptible.sex else 1))) ∧
    (∀ m, mw.behavioral_model = false → mw.mask_probabilities = some m →
      callTrans i susceptible infected group delta_time =
        .ok (f susceptible infected group delta_time *
          (match group.spec.bind (fun sp => dictLookup m sp) with
            | some p => 1 - (p * mw.compliance * (1 - sex_specific_beta mw susceptible.sex))
            | none => 1))) := by
  constructor
  · intro hb
    by_cases hw : susceptible.wears_mask = some true
    · simp [callTrans, hct, hslot, wrapperFactor, hb, hw, Except.map]
    · simp [callTrans, hct, hslot, wrapperFactor, hb, hw, Except.map]
  · intro m hb hm
    cases hsp : group.spec with
    | none => simp [callTrans, hct, hslot, wrapperFactor, hb, hm, hsp, Except.map, Option.bind]
    | some sp =>
      cases hd : dictLookup m sp with
      | none =>
        simp [callTrans, hct, hslot, wrapperFactor, hb, hm, hsp, hd, Except.map, Option.bind]
      | some p =>
        simp [callTrans, hct, hslot, wrapperFactor, hb, hm, hsp, hd, Except.map, Option.bind]

theorem wrapper_active_behavior_witness :
    iWrapA.calculate_transmission = .wrapper mwA ∧
    iWrapA.original_calculate_transmission = some (.base fOne) ∧
    mwA.behavioral_model = true ∧
    callTrans iWrapA pMask pMask (Group.mk none) 1 =
      .ok (fOne pMask pMask (Group.mk none) 1 *
        (if pMask.wears_mask = some true then sex_specific_beta mwA pMask.sex else 1)) :=
  ⟨rfl, rfl, rfl,
    (wrapper_active_behavior mwA fOne iWrapA rfl rfl pMask pMask (Group.mk none) 1).1 rfl⟩

/-- C2: for a single `MaskWearing` instance starting from an untouched engine,
any sequence of in-window `apply_to_interaction` calls followed by one
out-of-window call leaves `interaction.calculate_transmission` behaviorally
identical to the engine's original function: it is the original function again,
and every call returns exactly its value. -/
theorem maskWearing_restores_original_after_window (mw : MaskWearing)
    (f : Person → Person → Group → ℚ → ℚ) (i : Interaction)
    (hct : i.calculate_transmission = .base f)
    (hslot : i.original_calculate_transmission = none)
    (dates : List Int) (hdates : ∀ d ∈ dates, mw.start_time ≤ d ∧ d ≤ mw.end_time)
    (dout : Int) (hout : ¬ (mw.start_time ≤ dout ∧ dout ≤ mw.end_time)) :
    ((apply_to_interaction mw (apply_to_interaction_seq mw dates (false, i)).1 dout
        (apply_to_interaction_seq mw dates (false, i)).2).2).calculate_transmission =
      .base f ∧
    ∀ s inf g dt,
      callTrans ((apply_to_interaction mw (apply_to_interaction_seq mw dates (false, i)).1
          dout (apply_to_interaction_seq mw dates (false, i)).2).2) s inf g dt =
        .ok (f s inf g dt) := by
  have key : ((apply_to_interaction mw (apply_to_interaction_seq mw dates (false, i)).1 dout
      (apply_to_interaction_seq mw dates (false, i)).2).2).calculate_transmission =
      .base f := by
    rcases apply_to_interaction_seq_fresh mw dates hdates i hslot with hseq | hseq
    · rw [hseq]
      simp [apply_to_interaction, hout, hct]
    · rw [hseq]
      simp [apply_to_interaction, hout, hct]
  exact ⟨key, fun s inf g dt => by simp [callTrans, key]⟩

theorem maskWearing_restores_original_after_window_witness :
    (∀ d ∈ [(5 : Int)], mwA.start_time ≤ d ∧ d ≤ mwA.end_time) ∧
    ¬ (mwA.start_time ≤ 20 ∧ (20 : Int) ≤ mwA.end_time) ∧
    ((apply_to_interaction mwA (apply_to_interaction_seq mwA [5] (false, iBase)).1 20
        (apply_to_interaction_seq mwA [5] (false, iBase)).2).2).calculate_transmission =
      .base fOne :=
  ⟨by decide, by decide,
    (maskWearing_restores_original_after_window mwA fOne iBase rfl rfl [5]
      (by decide) 20 (by decide)).1⟩

/-- C10: from an untouched engine, the first in-window `apply_to_interaction`
call installs the wrapper (saving the current transmission function), and every
further in-window call with the saved-flag set leaves both the flag and the
interaction unchanged, so the wrapper is installed at most once and the
reduction does not compound across date steps. -/
theorem wrapper_installed_at_most_once (mw : MaskWearing) (i : Interaction)
    (hslot : i.original_calculate_transmission = none)
    (d1 : Int) (h1 : mw.start_time ≤ d1 ∧ d1 ≤ mw.end_time) :
    (apply_to_interaction mw false d1 i).1 = true ∧
    (apply_to_interaction mw false d1 i).2.calculate_transmission = .wrapper mw ∧
    (apply_to_interaction mw false d1 i).2.original_calculate_transmission =
      some i.calculate_transmission ∧
    (∀ (d2 : Int) (j : Interaction), mw.start_time ≤ d2 ∧ d2 ≤ mw.end_time →
      apply_to_interaction mw true d2 j = (true, j)) := by
  rw [apply_to_interaction_fresh_install mw d1 i hslot h1]
  exact ⟨rfl, rfl, rfl, fun d2 j h2 => apply_to_interaction_in_window_saved mw d2 j h2⟩

theorem wrapper_installed_at_most_once_witness :
    (mwA.start_time ≤ 5 ∧ (5 : Int) ≤ mwA.end_time) ∧
    (apply_to_interaction mwA false 5 iBase).1 = true ∧
    apply_to_interaction mwA true 6 (apply_to_interaction mwA false 5 iBase).2 =
      (true, (apply_to_interaction mwA false 5 iBase).2) := by
  have h := wrapper_installed_at_most_once mwA iBase rfl 5 (by decide)
  exact ⟨by decide, h.1, h.2.2.2 6 _ (by decide)⟩

/-- C3 counterexample: two `MaskWearing` instances (behavioral model, all
factors `1/2` resp. `1/3`) stacked at date `5` over a base function returning
`1`, called on a mask-wearing susceptible: the result is `1/3` (only the second
instance's factor), not the nested composition `1 * (1/2) * (1/3)` the claim
predicts, because the second wrapper calls the saved original directly, not the
first wrapper beneath it. -/
theorem stacked_wrappers_do_not_nest :
    callTrans (apply_to_interaction mwB false 5 (apply_to_interaction mwA false 5 iBase).2).2
      pMask pMask (Group.mk none) 1 = .ok (1/3) ∧
    (Except.ok (1/3) : Except String ℚ) ≠
      Except.ok (fOne pMask pMask (Group.mk none) 1 * (1/2) * (1/3)) := by
  have h1 : apply_to_interaction mwA false 5 iBase =
      (true, { iBase with
                 calculate_transmission := .wrapper mwA,
                 original_calculate_transmission := some iBase.calculate_transmission }) :=
    apply_to_interaction_fresh_install mwA 5 iBase rfl (by decide)
  have h2 : apply_to_interaction mwB false 5
      { iBase with
          calculate_transmission := .wrapper mwA,
          original_calculate_transmission := some iBase.calculate_transmission } =
      (true, { iBase with
                 calculate_transmission := .wrapper mwB,
                 original_calculate_transmission := some iBase.calculate_transmission }) := by
    simp [apply_to_interaction, show mwB.start_time ≤ 5 ∧ (5 : Int) ≤ mwB.end_time by decide]
  constructor
  · rw [h1, h2]
    show callTrans { iBase with
        calculate_transmission := .wrapper mwB,
        original_calculate_transmission := some iBase.calculate_transmission }
      pMask pMask (Group.mk none) 1 = .ok (1/3)
    simp only [callTrans, iBase, wrapperFactor, mwB, mwA, pMask, sex_specific_beta,
      Except.map, fOne]
    norm_num
  · intro hcontra
    have : (1/3 : ℚ) = fOne pMask pMask (Group.mk none) 1 * (1/2) * (1/3) :=
      Except.ok.inj hcontra
    norm_num [fOne] at this

/-- C3 amended: with two instances stacked over overlapping windows, the first
save is indeed idempotent (the slot keeps the true original, which is never
lost), but the wrappers do not nest: the last installed wrapper calls the saved
original directly, so only the last instance's demographic factor is applied. -/
theorem stacked_wrappers_last_installed_wins (A B : MaskWearing)
    (f : Person → Person → Group → ℚ → ℚ) (i : Interaction)
    (hct : i.calculate_transmission = .base f)
    (hslot : i.original_calculate_transmission = none)
    (d : Int) (hA : A.start_time ≤ d ∧ d ≤ A.end_time)
    (hB : B.start_time ≤ d ∧ d ≤ B.end_time) :
    (apply_to_interaction B false d
        (apply_to_interaction A false d i).2).2.original_calculate_transmission =
      some (.base f) ∧
    (apply_to_interaction B false d
        (apply_to_interaction A false d i).2).2.calculate_transmission = .wrapper B ∧
    ∀ s inf g dt,
      callTrans (apply_to_interaction B false d (apply_to_interaction A false d i).2).2
          s inf g dt =
        (wrapperFactor B s g).map (fun fac => f s inf g dt * fac) := by
  rw [apply_to_interaction_fresh_install A d i hslot hA]
  have h3 : apply_to_interaction B false d
      { i with
          calculate_transmission := .wrapper A,
          original_calculate_transmission := some i.calculate_transmission } =
      (true, { i with
                 calculate_transmission := .wrapper B,
                 original_calculate_transmission := some i.calculate_transmission }) := by
    simp [apply_to_interaction, hB]
  rw [h3]
  refine ⟨by rw [hct], rfl, fun s inf g dt => ?_⟩
  simp [callTrans, hct]

theorem stacked_wrappers_last_installed_wins_witness :
    (mwA.start_time ≤ 5 ∧ (5 : Int) ≤ mwA.end_time) ∧
    (mwB.start_time ≤ 5 ∧ (5 : Int) ≤ mwB.end_time) ∧
    (apply_to_interaction mwB false 5
        (apply_to_interaction mwA false 5 iBase).2).2.calculate_transmission =
      .wrapper mwB :=
  ⟨by decide, by decide,
    (stacked_wrappers_last_installed_wins mwA mwB fOne iBase rfl rfl 5
      (by decide) (by decide)).2.1⟩

end JUNE
